import Mathlib

/-!
Verification development for the nestjs-inngest connection lifecycle and
health diagnostics engine.

The definitions below are a shallow embedding of the TypeScript source:

* `src/services/inngest.service.ts` — `getConnectionHealth`,
  `establishConnection`, `gracefulShutdown`, the `isShuttingDown` flag and
  the `hasLoggedInternalCheckWarning` warn-once flag;
* `src/health/health.service.ts` — `checkHealth`, `getCheckResult`,
  `createUnhealthyResponse` and the single-flight `healthCheckInProgress`
  guard.

JavaScript property access on the third-party worker-connection object can
throw or yield a value of unexpected type, so every such read is modelled
as a `PropRead` value (either `throws` or a value), and dynamically typed
values are modelled by `JsVal`.
-/

namespace NestInngest

/-- Result of reading a JavaScript property: either the getter throws, or a
value is produced. -/
inductive PropRead (α : Type) where
  | throws
  | val (a : α)
deriving DecidableEq, Repr

/-- A dynamically typed JavaScript value as far as the health check observes
it: a number, some non-number non-nullish value, or null/undefined
(nullish values are merged, since the source only distinguishes them via
the nullish-coalescing operator and typeof checks). -/
inductive JsVal where
  | vnum (n : Int)
  | vother
  | vnil
deriving DecidableEq, Repr

/-- The typeof-number test of the source (true exactly on numbers). -/
def JsVal.isNum : JsVal → Bool
  | .vnum _ => true
  | _ => false

/-- The `ws` object inside the SDK-internal current connection: reading its
`readyState` property may throw and may produce any value. -/
structure WsObj where
  readyState : PropRead JsVal
deriving DecidableEq, Repr

/-- The SDK-internal `currentConnection` object. Each property read may
throw; `ws` and `id` may also be absent (undefined). -/
structure CurrentConn where
  ws : PropRead (Option WsObj)
  pendingHeartbeats : PropRead JsVal
  id : PropRead (Option String)
deriving DecidableEq, Repr

/-- The third-party `WorkerConnection` object returned by `connect()`.
`state` and `connectionId` are getters that may throw;
`currentConnection` is the SDK-internal field inspected by the deep
health check. -/
structure WorkerConnObj where
  state : PropRead (Option String)
  connectionId : PropRead (Option String)
  currentConnection : PropRead (Option CurrentConn)
deriving DecidableEq, Repr

/-- Operating mode of the module (`options.mode`). -/
inductive Mode where
  | serve
  | connect
deriving DecidableEq, Repr

/-- The `ConnectionHealthInfo` record returned by `getConnectionHealth`.
`pendingHeartbeats` keeps the raw JavaScript value because the source
copies the (possibly non-numeric) property value into the record. -/
structure ConnectionHealthInfo where
  isHealthy : Bool
  reason : String
  sdkState : String
  wsReadyState : Option Int
  wsStateName : Option String
  pendingHeartbeats : JsVal
  connectionId : Option String
  usingInternalCheck : Bool
deriving DecidableEq, Repr

/-- Embedding of InngestService.WS_STATE_NAMES. -/
def WS_STATE_NAMES : List String := ["CONNECTING", "OPEN", "CLOSING", "CLOSED"]

/-- Embedding of the name lookup WS_STATE_NAMES[wsReadyState] with null
fallback (array indexing by a number, undefined out of range). -/
def wsName (n : Int) : Option String :=
  if n < 0 then none else WS_STATE_NAMES[n.toNat]?

/-- Template-literal rendering of a string-or-null value. -/
def displayOpt : Option String → String
  | some s => s
  | none => "null"

/-- Template-literal rendering of a JavaScript number (only used where the
source has already checked that the value is a number). -/
def displayNum : JsVal → String
  | .vnum n => toString n
  | .vother => "vother"
  | .vnil => "null"

/-- Reading the ready-state through the optional chain on `ws`: undefined
when `ws` is nullish, otherwise the (possibly throwing) property read. -/
def readReadyState : Option WsObj → PropRead JsVal
  | none => .val .vnil
  | some o => o.readyState

/-- The call result of `getConnectionHealth`: the returned record, the
value of the `hasLoggedInternalCheckWarning` flag after the call, and
whether the one-time warning was logged during this call. -/
structure HealthCallOut where
  info : ConnectionHealthInfo
  warnAfter : Bool
  logged : Bool
deriving DecidableEq, Repr

/-- The record returned immediately in serve mode. -/
def serveModeInfo : ConnectionHealthInfo :=
  { isHealthy := true
    reason := "Running in serve mode (HTTP webhooks)"
    sdkState := "NOT_APPLICABLE"
    wsReadyState := none
    wsStateName := none
    pendingHeartbeats := .vnil
    connectionId := none
    usingInternalCheck := false }

/-- The heartbeat-failure test: the pending count reads as a number and
that number is at least 2. -/
def hbFail : JsVal → Bool
  | .vnum k => k ≥ 2
  | _ => false

/-- Nullish coalescing of the internal id field onto the outer
connection identifier. -/
def idOr (idv connectionId : Option String) : Option String :=
  match idv with
  | some s => some s
  | none => connectionId

/-- The state-only fallback verdict used when `ws.readyState` is not a
number. -/
def stateOnlyInfo (sdkState : String) (cid : Option String) :
    ConnectionHealthInfo :=
  { isHealthy := sdkState == "ACTIVE"
    reason :=
      if sdkState == "ACTIVE" then
        "Connection appears active (WebSocket state not accessible)"
      else
        "Connection state is " ++ sdkState ++ " (WebSocket state not accessible)"
    sdkState
    wsReadyState := none
    wsStateName := none
    pendingHeartbeats := .vnil
    connectionId := cid
    usingInternalCheck := false }

/-- The body of the big `try` block of `getConnectionHealth`: the tiered
deep inspection. `ccRead` is the read of `conn?.currentConnection`
(already `.val none` when the worker connection itself is absent).
A `throws` result means the exception escapes to the top-level catch. -/
def deepInspect (sdkState : String) (connectionId : Option String)
    (ccRead : PropRead (Option CurrentConn)) : PropRead ConnectionHealthInfo :=
  match ccRead with
  | .throws => .throws
  | .val none =>
      -- Check 1: currentConnection is null/undefined
      .val { isHealthy := false
             reason := "No active connection (currentConnection is null)"
             sdkState
             wsReadyState := none
             wsStateName := none
             pendingHeartbeats := .vnil
             connectionId := none
             usingInternalCheck := true }
  | .val (some cc) =>
    match cc.ws with
    | .throws => .throws
    | .val wsOpt =>
      match readReadyState wsOpt with
      | .throws => .throws
      | .val (.vnum n) =>
        let stateName := wsName n
        if n != 1 then
          -- Check 2: WebSocket is not OPEN
          match cc.pendingHeartbeats with
          | .throws => .throws
          | .val ph =>
            match cc.id with
            | .throws => .throws
            | .val idv =>
              .val { isHealthy := false
                     reason := "WebSocket is " ++ displayOpt stateName ++
                       " (expected OPEN)"
                     sdkState
                     wsReadyState := some n
                     wsStateName := stateName
                     pendingHeartbeats := ph
                     connectionId := idOr idv connectionId
                     usingInternalCheck := true }
        else
          match cc.pendingHeartbeats with
          | .throws => .throws
          | .val ph =>
            if hbFail ph then
              -- Check 3: heartbeat failure
              match cc.id with
              | .throws => .throws
              | .val idv =>
                .val { isHealthy := false
                       reason := "Heartbeat failure (" ++ displayNum ph ++
                         " consecutive heartbeats missed)"
                       sdkState
                       wsReadyState := some n
                       wsStateName := stateName
                       pendingHeartbeats := ph
                       connectionId := idOr idv connectionId
                       usingInternalCheck := true }
            else if sdkState != "ACTIVE" then
              -- Check 4: SDK coarse state should be ACTIVE
              match cc.id with
              | .throws => .throws
              | .val idv =>
                .val { isHealthy := false
                       reason := "Connection state is " ++ sdkState
                       sdkState
                       wsReadyState := some n
                       wsStateName := stateName
                       pendingHeartbeats := ph
                       connectionId := idOr idv connectionId
                       usingInternalCheck := true }
            else
              match cc.id with
              | .throws => .throws
              | .val idv =>
                .val { isHealthy := true
                       reason := "Connection is active and healthy"
                       sdkState
                       wsReadyState := some n
                       wsStateName := stateName
                       pendingHeartbeats := ph
                       connectionId := idOr idv connectionId
                       usingInternalCheck := true }
      | .val _ =>
        -- wsReadyState is not a number: state-only fallback verdict
        match cc.id with
        | .throws => .throws
        | .val idv => .val (stateOnlyInfo sdkState (idOr idv connectionId))

/-- Reading the coarse state through the optional chain with its CLOSED
fallback. This read sits outside every try block in the source, so a
throwing getter propagates. -/
def readSdkState : Option WorkerConnObj → PropRead String
  | none => .val "CLOSED"
  | some w =>
    match w.state with
    | .throws => .throws
    | .val so => .val (so.getD "CLOSED")

/-- The guarded `connectionId` read: the getter may throw, which the source
catches and treats as the identifier being absent. -/
def readConnectionIdSafe : Option WorkerConnObj → Option String
  | none => none
  | some w =>
    match w.connectionId with
    | .throws => none
    | .val v => v

/-- Reading the internal current connection through the optional chain
(undefined when no worker connection exists). -/
def readCurrentConnection : Option WorkerConnObj → PropRead (Option CurrentConn)
  | none => .val none
  | some w => w.currentConnection

/-- The global fallback verdict produced by the top-level catch block. -/
def fallbackInfo (sdkState : String) (connectionId : Option String) :
    ConnectionHealthInfo :=
  { isHealthy := sdkState == "ACTIVE"
    reason :=
      if sdkState == "ACTIVE" then
        "Connection appears active (internal check unavailable)"
      else
        "Connection state is " ++ sdkState ++ " (internal check unavailable)"
    sdkState
    wsReadyState := none
    wsStateName := none
    pendingHeartbeats := .vnil
    connectionId
    usingInternalCheck := false }

/-- Embedding of InngestService.getConnectionHealth, threaded with the
warn-once flag
`hasLoggedInternalCheckWarning` (`warnFlag`). The overall `PropRead`
result is `throws` exactly when the method itself raises to its caller. -/
def getConnectionHealth (mode : Mode) (wc : Option WorkerConnObj)
    (warnFlag : Bool) : PropRead HealthCallOut :=
  if mode != .connect then
    .val ⟨serveModeInfo, warnFlag, false⟩
  else
    match readSdkState wc with
    | .throws => .throws
    | .val sdkState =>
      let connectionId := readConnectionIdSafe wc
      match deepInspect sdkState connectionId (readCurrentConnection wc) with
      | .val info => .val ⟨info, warnFlag, false⟩
      | .throws =>
        -- top-level catch: warn once, fall back to the state-only verdict
        .val ⟨fallbackInfo sdkState connectionId, true, !warnFlag⟩

/-- A sequence of `k` successive `getConnectionHealth` calls against a fixed
worker connection, in connect mode, threading the warn-once flag; calls
stop early if one of them throws. -/
def callSeq (w : WorkerConnObj) (flag : Bool) : Nat → List HealthCallOut
  | 0 => []
  | k + 1 =>
    match getConnectionHealth .connect (some w) flag with
    | .throws => []
    | .val o => o :: callSeq w o.warnAfter k

/-- Boolean test that the first character list starts the second. -/
def startsB : List Char → List Char → Bool
  | [], _ => true
  | _ :: _, [] => false
  | a :: as, b :: bs => a == b && startsB as bs

/-- Boolean test that the first character list occurs contiguously inside
the second. -/
def insideB (sub : List Char) : List Char → Bool
  | [] => startsB sub []
  | c :: t => startsB sub (c :: t) || insideB sub t

/-- Substring test on strings, via the underlying character lists. -/
def strContains (s sub : String) : Bool :=
  insideB sub.data s.data

/-! ## Health aggregation service (`health.service.ts`) -/

/-- Component health status. -/
inductive Status where
  | healthy
  | unhealthy
  | degraded
deriving DecidableEq, Repr

/-- The `HealthCheckResult` record as far as the aggregator manipulates it:
`detailsError` models the `details.error` field written by
`getCheckResult` for a rejected check. Timestamps are abstract clock
readings. -/
structure HealthCheckResult where
  status : Status
  message : String
  detailsError : Option String := none
  timestamp : Nat
deriving DecidableEq, Repr

/-- The metadata block of `SystemHealth`. -/
structure SystemMeta where
  version : String
  environment : String
  uptime : Nat
  timestamp : Nat
deriving DecidableEq, Repr

/-- The `SystemHealth` record: the overall verdict plus the three
component checks. -/
structure SystemHealth where
  overall : Status
  inngest : HealthCheckResult
  functions : HealthCheckResult
  memory : HealthCheckResult
  metadata : SystemMeta
deriving DecidableEq, Repr

/-- Outcome of an awaited promise as delivered by `Promise.allSettled`:
fulfilled with a value, or rejected with `reason?.message`. -/
inductive Settled (α : Type) where
  | fulfilled (value : α)
  | rejected (reasonMsg : Option String)
deriving DecidableEq, Repr

/-- Ambient inputs of one aggregator call: version and environment strings,
the uptime counter and the current clock reading. -/
structure AggEnv where
  version : String
  environment : String
  uptime : Nat
  now : Nat
deriving DecidableEq, Repr

/-- Mutable state of `InngestHealthService`: the cached last result and the
single-flight flag. -/
structure AggState where
  lastHealthCheck : Option SystemHealth
  inProgress : Bool
deriving DecidableEq, Repr

/-- Embedding of getCheckResult: a fulfilled check keeps its value, a
rejected one is
converted to an unhealthy result with the fallback message and the
rejection message in `details.error`. -/
def getCheckResult (r : Settled HealthCheckResult) (fallbackMessage : String)
    (now : Nat) : HealthCheckResult :=
  match r with
  | .fulfilled v => v
  | .rejected m =>
    { status := .unhealthy
      message := fallbackMessage
      detailsError := some (m.getD "Unknown error")
      timestamp := now }

/-- One "Not checked" component of `createUnhealthyResponse`. -/
def notCheckedResult (now : Nat) : HealthCheckResult :=
  { status := .unhealthy, message := "Not checked", timestamp := now }

/-- Embedding of createUnhealthyResponse (the message argument is ignored
by the
source, so it is not modelled). -/
def createUnhealthyResponse (env : AggEnv) : SystemHealth :=
  { overall := .unhealthy
    inngest := notCheckedResult env.now
    functions := notCheckedResult env.now
    memory := notCheckedResult env.now
    metadata := ⟨env.version, env.environment, env.uptime, env.now⟩ }

/-- The overall-status computation of `checkHealth` (filter on unhealthy,
then on degraded). -/
def computeOverall (a b c : HealthCheckResult) : Status :=
  let allChecks := [a, b, c]
  if (allChecks.filter (fun x => x.status == .unhealthy)).length > 0 then
    .unhealthy
  else if (allChecks.filter (fun x => x.status == .degraded)).length > 0 then
    .degraded
  else
    .healthy

/-- The post-guard body of `checkHealth`: convert the three settled
outcomes, merge, and build the `SystemHealth` record. -/
def runChecksBody
    (outcomes : Settled HealthCheckResult × Settled HealthCheckResult ×
      Settled HealthCheckResult) (env : AggEnv) : SystemHealth :=
  let i := getCheckResult outcomes.1 "Inngest connectivity check failed" env.now
  let f := getCheckResult outcomes.2.1 "Functions check failed" env.now
  let m := getCheckResult outcomes.2.2 "Memory check failed" env.now
  { overall := computeOverall i f m
    inngest := i
    functions := f
    memory := m
    metadata := ⟨env.version, env.environment, env.uptime, env.now⟩ }

/-- Embedding of checkHealth as one uninterrupted call. Returns the
produced
`SystemHealth`, the state after the call, and whether the three-check
fan-out was launched. -/
def checkHealth (st : AggState)
    (outcomes : Settled HealthCheckResult × Settled HealthCheckResult ×
      Settled HealthCheckResult) (env : AggEnv) :
    SystemHealth × AggState × Bool :=
  if st.inProgress then
    (st.lastHealthCheck.getD (createUnhealthyResponse env), st, false)
  else
    let h := runChecksBody outcomes env
    (h, ⟨some h, false⟩, true)

/-- Two `checkHealth` calls where the second is issued while the first is
suspended at its fan-out (the only interleaving the single-threaded
runtime allows when the second call starts before the first resolves).
Assumes the first call passes the guard, i.e. `st.inProgress = false`.
Returns (first call result, second call result, second call fan-out
flag, final state). -/
def concurrentCheckHealth (st : AggState)
    (outcomes : Settled HealthCheckResult × Settled HealthCheckResult ×
      Settled HealthCheckResult) (env1 env2 : AggEnv) :
    SystemHealth × SystemHealth × Bool × AggState :=
  -- first call: guard passes, the in-progress flag is set, then it suspends
  let stMid : AggState := ⟨st.lastHealthCheck, true⟩
  -- second call runs to completion during the suspension
  let second := checkHealth stMid outcomes env2
  -- first call resumes: fan-in, store the fresh result, clear the flag
  let h1 := runChecksBody outcomes env1
  (h1, second.1, second.2.2, ⟨some h1, false⟩)

/-! ## Connection lifecycle (`establishConnection` / `gracefulShutdown`) -/

/-- The fields of `InngestService` that the lifecycle operations read and
write. -/
structure ServiceState where
  mode : Mode
  workerConnection : Option WorkerConnObj
  shuttingDown : Bool
  shutdownTimeout : Option Nat
deriving DecidableEq, Repr

/-- Outcome of the awaited shutdown race plus the `closed` await: either
everything completed, or some exception (close rejection or the timeout
firing) reached the catch block. -/
inductive RaceOutcome where
  | closedGracefully
  | threw (msg : String)
deriving DecidableEq, Repr

/-- Result of one `gracefulShutdown` call. -/
structure ShutdownResult where
  state : ServiceState
  attempted : Bool
  warnedNotGraceful : Bool
  timeoutUsed : Nat
  threw : Bool
deriving DecidableEq, Repr

/-- Embedding of gracefulShutdown: guard, set the shutting-down flag,
compute the timeout, then read the handle coarse state for the entry
log — this read happens after the flag assignment and before the try
block, so a throwing state getter propagates to the caller
(`threw = true`) with the flag set and the handle left in place — then
race close against the timeout (outcome supplied by the environment),
catch any race failure as a warning, and clear the handle in the
`finally` block. -/
def gracefulShutdown (st : ServiceState) (race : RaceOutcome) :
    ShutdownResult :=
  if st.mode != .connect || st.workerConnection.isNone || st.shuttingDown then
    ⟨st, false, false, 0, false⟩
  else
    let st1 : ServiceState := { st with shuttingDown := true }
    let t := st.shutdownTimeout.getD 30000
    -- entry log reads the coarse state of the handle, outside the try block
    match st.workerConnection with
    | none => ⟨st, false, false, 0, false⟩
    | some w =>
      match w.state with
      | .throws => ⟨st1, true, false, t, true⟩
      | .val _ =>
        match race with
        | .closedGracefully =>
          ⟨{ st1 with workerConnection := none }, true, false, t, false⟩
        | .threw _ =>
          ⟨{ st1 with workerConnection := none }, true, true, t, false⟩

/-- Outcome of the awaited `connect(...)` call (or of the dynamic import
preceding it): a fresh handle, or a failure message. -/
inductive ConnectOutcome where
  | ok (h : WorkerConnObj)
  | fails (msg : String)
deriving DecidableEq, Repr

/-- Result of one `establishConnection` call: the state after the call,
whether a connection attempt was made, and the error rethrown to the
caller, if any. -/
structure EstablishResult where
  state : ServiceState
  attempted : Bool
  errorThrown : Option String
deriving DecidableEq, Repr

/-- Embedding of establishConnection: early return while shutting down or
when not
in connect mode; otherwise attempt the connection, store the handle on
success, and rethrow the failure on error. -/
def establishConnection (st : ServiceState) (outcome : ConnectOutcome) :
    EstablishResult :=
  if st.shuttingDown then
    ⟨st, false, none⟩
  else if st.mode != .connect then
    ⟨st, false, none⟩
  else
    match outcome with
    | .ok h => ⟨{ st with workerConnection := some h }, true, none⟩
    | .fails m => ⟨st, true, some m⟩

/-! ### Concrete objects used in witnesses and counterexamples -/


/-- A ws object whose ready-state reads OPEN(1). -/
def wsOpen : WsObj := ⟨.val (.vnum 1)⟩

/-- A healthy current connection: OPEN transport, zero pending heartbeats. -/
def ccGood : CurrentConn := ⟨.val (some wsOpen), .val (.vnum 0), .val (some "cid")⟩

/-- A worker connection whose public coarse-state getter throws. -/
def wThrowState : WorkerConnObj := ⟨.throws, .val none, .val none⟩

/-- A worker connection whose internal property accessors (the
`connectionId` getter and the `currentConnection` read) always throw,
while the public coarse-state getter reads ACTIVE. -/
def wThrowInternals : WorkerConnObj := ⟨.val (some "ACTIVE"), .throws, .throws⟩

/-- A healthy component result used in concrete aggregator runs. -/
def okResult : HealthCheckResult := ⟨.healthy, "ok", none, 0⟩

/-- A concrete aggregator environment. -/
def envA : AggEnv := ⟨"0.1.0", "development", 0, 0⟩

/-- A live connect-mode service state with a 50ms shutdown timeout. -/
def stLive : ServiceState := ⟨.connect, some wThrowState, false, some 50⟩

/-- A live connect-mode service state whose handle has a readable coarse
state (its internal accessors still throw, which shutdown never reads). -/
def stLiveOk : ServiceState := ⟨.connect, some wThrowInternals, false, some 50⟩

end NestInngest

namespace NestInngest

/-! ## Theorems -/

/-! ### Lemmas about the substring test -/

theorem startsB_refl (l : List Char) : startsB l l = true := by
  induction l with
  | nil => rfl
  | cons c t ih => simp [startsB, ih]

theorem startsB_extend (s t u : List Char) (h : startsB s t = true) :
    startsB s (t ++ u) = true := by
  induction s generalizing t with
  | nil => rfl
  | cons x xs ih =>
    cases t with
    | nil => simp [startsB] at h
    | cons y ys =>
      simp only [startsB, Bool.and_eq_true] at h
      simp only [List.cons_append, startsB, Bool.and_eq_true]
      exact ⟨h.1, ih ys h.2⟩

theorem insideB_of_startsB (sub l : List Char) (h : startsB sub l = true) :
    insideB sub l = true := by
  cases l with
  | nil => exact h
  | cons c t => simp [insideB, h]

theorem insideB_append_left (a b sub : List Char)
    (h : insideB sub b = true) : insideB sub (a ++ b) = true := by
  induction a with
  | nil => exact h
  | cons c t ih => simp [insideB, ih]

theorem insideB_append_right (a b sub : List Char)
    (h : insideB sub a = true) : insideB sub (a ++ b) = true := by
  induction a with
  | nil =>
    cases sub with
    | nil => exact insideB_of_startsB _ _ rfl
    | cons x xs => simp [insideB, startsB] at h
  | cons c t ih =>
    simp only [insideB, Bool.or_eq_true] at h
    rcases h with h | h
    · exact insideB_of_startsB _ _ (startsB_extend _ _ _ h)
    · simp only [List.cons_append, insideB, Bool.or_eq_true]
      exact Or.inr (ih h)

theorem strContains_refl (s : String) : strContains s s = true :=
  insideB_of_startsB _ _ (startsB_refl s.data)

theorem strContains_append_left (a b sub : String)
    (h : strContains b sub = true) : strContains (a ++ b) sub = true := by
  unfold strContains at h ⊢
  rw [String.data_append]
  exact insideB_append_left _ _ _ h

theorem strContains_append_right (a b sub : String)
    (h : strContains a sub = true) : strContains (a ++ b) sub = true := by
  unfold strContains at h ⊢
  rw [String.data_append]
  exact insideB_append_right _ _ _ h

/-! ### Reduction lemmas for `getConnectionHealth` -/

theorem getConnectionHealth_connect_val (w : WorkerConnObj) (so : Option String)
    (warn : Bool) (info : ConnectionHealthInfo)
    (hs : w.state = .val so)
    (hdeep : deepInspect (so.getD "CLOSED") (readConnectionIdSafe (some w))
      w.currentConnection = .val info) :
    getConnectionHealth .connect (some w) warn = .val ⟨info, warn, false⟩ := by
  unfold getConnectionHealth
  rw [if_neg (by decide)]
  simp only [readSdkState, hs, readCurrentConnection]
  rw [hdeep]

theorem getConnectionHealth_connect_throws (w : WorkerConnObj) (so : Option String)
    (warn : Bool)
    (hs : w.state = .val so)
    (hdeep : deepInspect (so.getD "CLOSED") (readConnectionIdSafe (some w))
      w.currentConnection = .throws) :
    getConnectionHealth .connect (some w) warn =
      .val ⟨fallbackInfo (so.getD "CLOSED") (readConnectionIdSafe (some w)), true, !warn⟩ := by
  unfold getConnectionHealth
  rw [if_neg (by decide)]
  simp only [readSdkState, hs, readCurrentConnection]
  rw [hdeep]

theorem deepInspect_null (s : String) (cid : Option String) :
    deepInspect s cid (.val none) =
      .val { isHealthy := false
             reason := "No active connection (currentConnection is null)"
             sdkState := s
             wsReadyState := none
             wsStateName := none
             pendingHeartbeats := .vnil
             connectionId := none
             usingInternalCheck := true } := rfl

theorem deepInspect_stateOnly (s : String) (cid : Option String)
    (wsOpt : Option WsObj) (rs : JsVal) (phR : PropRead JsVal)
    (idv : Option String)
    (hrs : readReadyState wsOpt = .val rs)
    (hnum : rs.isNum = false) :
    deepInspect s cid (.val (some ⟨.val wsOpt, phR, .val idv⟩)) =
      .val (stateOnlyInfo s (idOr idv cid)) := by
  simp only [deepInspect, hrs]
  cases rs with
  | vnum n => simp [JsVal.isNum] at hnum
  | vother => rfl
  | vnil => rfl

theorem deepInspect_notOpen (s : String) (cid : Option String)
    (wsOpt : Option WsObj) (n : Int) (ph : JsVal) (idv : Option String)
    (hrs : readReadyState wsOpt = .val (.vnum n))
    (hn : n ≠ 1) :
    deepInspect s cid (.val (some ⟨.val wsOpt, .val ph, .val idv⟩)) =
      .val { isHealthy := false
             reason := "WebSocket is " ++ displayOpt (wsName n) ++ " (expected OPEN)"
             sdkState := s
             wsReadyState := some n
             wsStateName := wsName n
             pendingHeartbeats := ph
             connectionId := idOr idv cid
             usingInternalCheck := true } := by
  simp only [deepInspect, hrs]
  rw [if_pos (by simpa [bne_iff_ne] using hn)]

theorem deepInspect_heartbeat (s : String) (cid : Option String)
    (wsOpt : Option WsObj) (ph : JsVal) (idv : Option String)
    (hrs : readReadyState wsOpt = .val (.vnum 1))
    (hb : hbFail ph = true) :
    deepInspect s cid (.val (some ⟨.val wsOpt, .val ph, .val idv⟩)) =
      .val { isHealthy := false
             reason := "Heartbeat failure (" ++ displayNum ph ++
               " consecutive heartbeats missed)"
             sdkState := s
             wsReadyState := some 1
             wsStateName := wsName 1
             pendingHeartbeats := ph
             connectionId := idOr idv cid
             usingInternalCheck := true } := by
  simp only [deepInspect, hrs]
  rw [if_neg (by simp), if_pos hb]

theorem deepInspect_stateMismatch (s : String) (cid : Option String)
    (wsOpt : Option WsObj) (ph : JsVal) (idv : Option String)
    (hrs : readReadyState wsOpt = .val (.vnum 1))
    (hb : hbFail ph = false)
    (hA : s ≠ "ACTIVE") :
    deepInspect s cid (.val (some ⟨.val wsOpt, .val ph, .val idv⟩)) =
      .val { isHealthy := false
             reason := "Connection state is " ++ s
             sdkState := s
             wsReadyState := some 1
             wsStateName := wsName 1
             pendingHeartbeats := ph
             connectionId := idOr idv cid
             usingInternalCheck := true } := by
  simp only [deepInspect, hrs]
  rw [if_neg (by simp), if_neg (by simp [hb]),
    if_pos (by simpa [bne_iff_ne] using hA)]

theorem deepInspect_healthy (cid : Option String)
    (wsOpt : Option WsObj) (ph : JsVal) (idv : Option String)
    (hrs : readReadyState wsOpt = .val (.vnum 1))
    (hb : hbFail ph = false) :
    deepInspect "ACTIVE" cid (.val (some ⟨.val wsOpt, .val ph, .val idv⟩)) =
      .val { isHealthy := true
             reason := "Connection is active and healthy"
             sdkState := "ACTIVE"
             wsReadyState := some 1
             wsStateName := wsName 1
             pendingHeartbeats := ph
             connectionId := idOr idv cid
             usingInternalCheck := true } := by
  simp only [deepInspect, hrs]
  rw [if_neg (by simp), if_neg (by simp [hb]), if_neg (by simp)]

/-! ### Claim C1 -/

/-- C1: in connect mode, whenever `getConnectionHealth` reaches the deep
inspection path without an exception (`currentConnection` non-null and
`ws.readyState` a number), the verdict has `usingInternalCheck = true`,
and `isHealthy = true` iff the ready-state equals OPEN(1), the pending
heartbeats do not read as a number that is at least 2, and the coarse SDK
state equals ACTIVE; when unhealthy because the ready-state is not OPEN
the reason includes the named transport state, and when unhealthy only
because the coarse state is not ACTIVE the reason names that state. -/
theorem C1_deep_path_verdict (s : String) (cidR : PropRead (Option String))
    (wsOpt : Option WsObj) (n : Int) (ph : JsVal) (idv : Option String)
    (warn : Bool)
    (hrs : readReadyState wsOpt = .val (.vnum n)) :
    ∃ out, getConnectionHealth .connect
        (some ⟨.val (some s), cidR, .val (some ⟨.val wsOpt, .val ph, .val idv⟩)⟩)
        warn = .val out ∧
      out.info.usingInternalCheck = true ∧
      (out.info.isHealthy = true ↔ (n = 1 ∧ hbFail ph = false ∧ s = "ACTIVE")) ∧
      (∀ name, wsName n = some name → n ≠ 1 →
        strContains out.info.reason name = true) ∧
      (n = 1 → hbFail ph = false → s ≠ "ACTIVE" →
        strContains out.info.reason s = true) := by
  by_cases hn : n = 1
  · subst hn
    by_cases hb : hbFail ph = true
    · refine ⟨_, getConnectionHealth_connect_val _ _ _ _ rfl
        (deepInspect_heartbeat s _ wsOpt ph idv hrs hb), rfl, ?_, ?_, ?_⟩
      · simp [hb]
      · intro name _ h1; exact absurd rfl h1
      · intro _ hbf; rw [hb] at hbf; exact absurd hbf (by simp)
    · rw [Bool.not_eq_true] at hb
      by_cases hA : s = "ACTIVE"
      · subst hA
        refine ⟨_, getConnectionHealth_connect_val _ _ _ _ rfl
          (deepInspect_healthy _ wsOpt ph idv hrs hb), rfl, ?_, ?_, ?_⟩
        · simp [hb]
        · intro name _ h1; exact absurd rfl h1
        · intro _ _ hA2; exact absurd rfl hA2
      · refine ⟨_, getConnectionHealth_connect_val _ _ _ _ rfl
          (deepInspect_stateMismatch s _ wsOpt ph idv hrs hb hA), rfl, ?_, ?_, ?_⟩
        · simp [hA]
        · intro name _ h1; exact absurd rfl h1
        · intro _ _ _
          exact strContains_append_left "Connection state is " s s
            (strContains_refl s)
  · refine ⟨_, getConnectionHealth_connect_val _ _ _ _ rfl
      (deepInspect_notOpen s _ wsOpt n ph idv hrs hn), rfl, ?_, ?_, ?_⟩
    · simp [hn]
    · intro name hname _
      show strContains ("WebSocket is " ++ displayOpt (wsName n) ++
        " (expected OPEN)") name = true
      rw [hname]
      exact strContains_append_right _ " (expected OPEN)" name
        (strContains_append_left "WebSocket is " name name
          (strContains_refl name))
    · intro h1; exact absurd h1 hn

/-- Witness for C1 at a concrete healthy connection. -/
theorem C1_witness :
    readReadyState (some wsOpen) = .val (.vnum 1) ∧
    (∃ out, getConnectionHealth .connect
        (some ⟨.val (some "ACTIVE"), .val (some "cid"),
          .val (some ⟨.val (some wsOpen), .val (.vnum 0), .val (some "cid")⟩)⟩)
        false = .val out ∧
      out.info.usingInternalCheck = true ∧
      (out.info.isHealthy = true ↔
        ((1 : Int) = 1 ∧ hbFail (.vnum 0) = false ∧ "ACTIVE" = "ACTIVE")) ∧
      (∀ name, wsName 1 = some name → (1 : Int) ≠ 1 →
        strContains out.info.reason name = true) ∧
      ((1 : Int) = 1 → hbFail (.vnum 0) = false → "ACTIVE" ≠ "ACTIVE" →
        strContains out.info.reason "ACTIVE" = true)) :=
  ⟨rfl, C1_deep_path_verdict "ACTIVE" (.val (some "cid")) (some wsOpen) 1
    (.vnum 0) (some "cid") false rfl⟩

/-! ### Claim C2 -/

/-- C2: in connect mode, whenever the internal `currentConnection` is
null/undefined — including when no worker connection object exists at
all — `getConnectionHealth` returns `isHealthy = false` with a reason
containing "currentConnection is null" and `usingInternalCheck = true`;
the `connectionId` getter is arbitrary (it may throw), and a failing
identifier read is treated as the identifier being absent, never as a
crash. -/
theorem C2_null_connection_verdict (so : Option String)
    (cidR : PropRead (Option String)) (warn : Bool) :
    (∃ out, getConnectionHealth .connect none warn = .val out ∧
      out.info.isHealthy = false ∧
      strContains out.info.reason "currentConnection is null" = true ∧
      out.info.usingInternalCheck = true) ∧
    (∃ out, getConnectionHealth .connect (some ⟨.val so, cidR, .val none⟩)
        warn = .val out ∧
      out.info.isHealthy = false ∧
      strContains out.info.reason "currentConnection is null" = true ∧
      out.info.usingInternalCheck = true) := by
  constructor
  · refine ⟨_, rfl, rfl, ?_, rfl⟩
    show strContains "No active connection (currentConnection is null)"
      "currentConnection is null" = true
    decide
  · refine ⟨_, getConnectionHealth_connect_val _ so warn _ rfl
      (deepInspect_null (so.getD "CLOSED") _), rfl, ?_, rfl⟩
    show strContains "No active connection (currentConnection is null)"
      "currentConnection is null" = true
    decide

/-! ### Claim C3 -/

/-- C3: in connect mode with a non-null `currentConnection` whose
`ws.readyState` does not read as a number, `getConnectionHealth` returns
the state-only verdict: healthy iff the coarse state equals ACTIVE, the
reason contains "not accessible", and `usingInternalCheck = false`. -/
theorem C3_state_only_verdict (s : String) (cidR : PropRead (Option String))
    (wsOpt : Option WsObj) (rs : JsVal) (phR : PropRead JsVal)
    (idv : Option String) (warn : Bool)
    (hrs : readReadyState wsOpt = .val rs)
    (hnum : rs.isNum = false) :
    ∃ out, getConnectionHealth .connect
        (some ⟨.val (some s), cidR, .val (some ⟨.val wsOpt, phR, .val idv⟩)⟩)
        warn = .val out ∧
      (out.info.isHealthy = true ↔ s = "ACTIVE") ∧
      strContains out.info.reason "not accessible" = true ∧
      out.info.usingInternalCheck = false := by
  refine ⟨_, getConnectionHealth_connect_val _ _ _ _ rfl
    (deepInspect_stateOnly s _ wsOpt rs phR idv hrs hnum), ?_, ?_, rfl⟩
  · show ((s == "ACTIVE") = true ↔ s = "ACTIVE")
    exact beq_iff_eq
  · show strContains (stateOnlyInfo s _).reason "not accessible" = true
    unfold stateOnlyInfo
    by_cases hA : s = "ACTIVE"
    · subst hA
      show strContains
        "Connection appears active (WebSocket state not accessible)"
        "not accessible" = true
      decide
    · rw [if_neg (by simpa using hA)]
      exact strContains_append_left ("Connection state is " ++ s)
        " (WebSocket state not accessible)" "not accessible" (by decide)

/-- Witness for C3: ready-state field absent (empty ws object), coarse
state RECONNECTING. -/
theorem C3_witness :
    readReadyState (some ⟨.val .vnil⟩) = .val .vnil ∧
    JsVal.vnil.isNum = false ∧
    (∃ out, getConnectionHealth .connect
        (some ⟨.val (some "RECONNECTING"), .val (some "cid"),
          .val (some ⟨.val (some ⟨.val .vnil⟩), .val .vnil, .val none⟩)⟩)
        false = .val out ∧
      (out.info.isHealthy = true ↔ "RECONNECTING" = "ACTIVE") ∧
      strContains out.info.reason "not accessible" = true ∧
      out.info.usingInternalCheck = false) :=
  ⟨rfl, rfl, C3_state_only_verdict "RECONNECTING" (.val (some "cid"))
    (some ⟨.val .vnil⟩) .vnil (.val .vnil) none false rfl rfl⟩

/-! ### Claim C5 -/

/-- C5: with the transport OPEN(1), a pending-heartbeat count reading 2
produces an unhealthy verdict whose reason contains "Heartbeat failure"
and the missed count, while a count of 1 with coarse state ACTIVE
produces a healthy verdict: the threshold is exactly 2. -/
theorem C5_heartbeat_threshold (s : String) (cidR : PropRead (Option String))
    (wsOpt : Option WsObj) (idv : Option String) (warn : Bool)
    (hrs : readReadyState wsOpt = .val (.vnum 1)) :
    (∃ out, getConnectionHealth .connect
        (some ⟨.val (some s), cidR,
          .val (some ⟨.val wsOpt, .val (.vnum 2), .val idv⟩)⟩) warn = .val out ∧
      out.info.isHealthy = false ∧
      strContains out.info.reason "Heartbeat failure" = true ∧
      strContains out.info.reason "2" = true) ∧
    (∃ out, getConnectionHealth .connect
        (some ⟨.val (some "ACTIVE"), cidR,
          .val (some ⟨.val wsOpt, .val (.vnum 1), .val idv⟩)⟩) warn = .val out ∧
      out.info.isHealthy = true) := by
  constructor
  · refine ⟨_, getConnectionHealth_connect_val _ _ _ _ rfl
      (deepInspect_heartbeat s _ wsOpt (.vnum 2) idv hrs (by decide)),
      rfl, ?_, ?_⟩
    · show strContains ("Heartbeat failure (" ++ displayNum (.vnum 2) ++
        " consecutive heartbeats missed)") "Heartbeat failure" = true
      decide
    · show strContains ("Heartbeat failure (" ++ displayNum (.vnum 2) ++
        " consecutive heartbeats missed)") "2" = true
      decide
  · exact ⟨_, getConnectionHealth_connect_val _ _ _ _ rfl
      (deepInspect_healthy _ wsOpt (.vnum 1) idv hrs (by decide)), rfl⟩

/-- Witness for C5 at the concrete OPEN ws object. -/
theorem C5_witness :
    readReadyState (some wsOpen) = .val (.vnum 1) ∧
    ((∃ out, getConnectionHealth .connect
        (some ⟨.val (some "ACTIVE"), .val (some "cid"),
          .val (some ⟨.val (some wsOpen), .val (.vnum 2), .val (some "cid")⟩)⟩)
        false = .val out ∧
      out.info.isHealthy = false ∧
      strContains out.info.reason "Heartbeat failure" = true ∧
      strContains out.info.reason "2" = true) ∧
    (∃ out, getConnectionHealth .connect
        (some ⟨.val (some "ACTIVE"), .val (some "cid"),
          .val (some ⟨.val (some wsOpen), .val (.vnum 1), .val (some "cid")⟩)⟩)
        false = .val out ∧
      out.info.isHealthy = true)) :=
  ⟨rfl, C5_heartbeat_threshold "ACTIVE" (.val (some "cid")) (some wsOpen)
    (some "cid") false rfl⟩

/-! ### Claim C4 -/

/-- Counterexample to C4 as stated: the coarse-state read
of the coarse state with its CLOSED fallback happens before the try block
that guards the deep inspection, so a throwing `state` getter makes
`getConnectionHealth` itself throw to its caller. -/
theorem C4_counterexample :
    getConnectionHealth .connect (some wThrowState) false = .throws := rfl

/-- C4 (amended): every exception raised inside the deep-inspection try
block (reading `currentConnection`, `ws`, `readyState`,
`pendingHeartbeats` or `id`) is caught at the top level and converted to
the global fallback verdict — healthy iff the coarse state equals
ACTIVE, `usingInternalCheck = false` — so no exception of the deep
inspection escapes; only the initial coarse-state read, which precedes
the try block, can propagate. -/
theorem C4_amended_catch_to_fallback (so : Option String)
    (cidR : PropRead (Option String)) (ccR : PropRead (Option CurrentConn))
    (warn : Bool)
    (hthrow : deepInspect (so.getD "CLOSED")
      (readConnectionIdSafe (some ⟨.val so, cidR, ccR⟩)) ccR = .throws) :
    ∃ out, getConnectionHealth .connect (some ⟨.val so, cidR, ccR⟩) warn =
        .val out ∧
      out.info.usingInternalCheck = false ∧
      (out.info.isHealthy = true ↔ so.getD "CLOSED" = "ACTIVE") := by
  refine ⟨_, getConnectionHealth_connect_throws _ so warn rfl hthrow, rfl, ?_⟩
  show ((so.getD "CLOSED" == "ACTIVE") = true ↔ so.getD "CLOSED" = "ACTIVE")
  exact beq_iff_eq

/-- Witness for the amended C4: the `currentConnection` read throws. -/
theorem C4_witness :
    deepInspect ((some "ACTIVE").getD "CLOSED")
      (readConnectionIdSafe
        (some ⟨.val (some "ACTIVE"), .val none, .throws⟩)) .throws = .throws ∧
    (∃ out, getConnectionHealth .connect
        (some ⟨.val (some "ACTIVE"), .val none, .throws⟩) false = .val out ∧
      out.info.usingInternalCheck = false ∧
      (out.info.isHealthy = true ↔ (some "ACTIVE").getD "CLOSED" = "ACTIVE")) :=
  ⟨rfl, C4_amended_catch_to_fallback (some "ACTIVE") (.val none) .throws
    false rfl⟩

/-! ### Claim C9 -/

/-- C9: the warn-once flag only transitions from false to true and is never
reset — in any call that returns, the flag afterwards is the old flag or
the fact that this call logged, and a call entered with the flag already
set logs nothing; three successive calls against a handle whose internal
accessors always throw log the warning exactly once while every call
still returns a fallback verdict. -/
theorem C9_warn_once (m : Mode) (wc : Option WorkerConnObj) (flag : Bool)
    (out : HealthCallOut)
    (h : getConnectionHealth m wc flag = .val out) :
    (out.warnAfter = (flag || out.logged) ∧
      (flag = true → out.logged = false)) ∧
    (let outs := callSeq wThrowInternals false 3
     outs.length = 3 ∧
      (outs.filter (fun o => o.logged)).length = 1 ∧
      outs.all (fun o => !o.info.usingInternalCheck && o.info.isHealthy)
        = true) := by
  refine ⟨?_, by decide⟩
  cases m with
  | serve =>
    simp only [getConnectionHealth, reduceCtorEq, bne_iff_ne, ne_eq,
      not_false_eq_true, if_true] at h
    cases h
    simp
  | connect =>
    rw [getConnectionHealth, if_neg (by decide)] at h
    cases hr : readSdkState wc with
    | throws => rw [hr] at h; cases h
    | val s =>
      rw [hr] at h
      dsimp only at h
      cases hd : deepInspect s (readConnectionIdSafe wc)
          (readCurrentConnection wc) with
      | val info => rw [hd] at h; cases h; simp
      | throws =>
        rw [hd] at h
        cases h
        refine ⟨by simp, fun hf => by simp [hf]⟩

/-- Witness for C9 in serve mode. -/
theorem C9_witness :
    getConnectionHealth .serve none false = .val ⟨serveModeInfo, false, false⟩ ∧
    (((⟨serveModeInfo, false, false⟩ : HealthCallOut).warnAfter =
        (false || (⟨serveModeInfo, false, false⟩ : HealthCallOut).logged) ∧
      (false = true →
        (⟨serveModeInfo, false, false⟩ : HealthCallOut).logged = false)) ∧
     (let outs := callSeq wThrowInternals false 3
      outs.length = 3 ∧
       (outs.filter (fun o => o.logged)).length = 1 ∧
       outs.all (fun o => !o.info.usingInternalCheck && o.info.isHealthy)
         = true)) :=
  ⟨rfl, C9_warn_once .serve none false ⟨serveModeInfo, false, false⟩ rfl⟩

/-! ### Claim C6 -/

/-- Counterexample to C6 as stated: with no previous cached result and all
three checks healthy, the first of two concurrent `checkHealth` calls
returns the freshly computed healthy `SystemHealth` while the second
returns the synthetic all-unhealthy response — the two calls do not
return the same value. -/
theorem C6_counterexample :
    (concurrentCheckHealth ⟨none, false⟩
        (.fulfilled okResult, .fulfilled okResult, .fulfilled okResult)
        envA envA).1 ≠
      (concurrentCheckHealth ⟨none, false⟩
        (.fulfilled okResult, .fulfilled okResult, .fulfilled okResult)
        envA envA).2.1 := by decide

/-- C6 (amended): a `checkHealth` call issued while a computation is in
flight returns the previous cached `SystemHealth` (or the synthetic
all-unhealthy response when no check has completed yet) immediately,
without launching a second fan-out and without touching the state; in
the interleaved two-call scenario the second call therefore returns the
stale cached value while the first returns the freshly computed one, so
the two results coincide only by accident. -/
theorem C6_amended_single_flight (st : AggState)
    (o : Settled HealthCheckResult × Settled HealthCheckResult ×
      Settled HealthCheckResult) (env1 env2 : AggEnv)
    (_hguard : st.inProgress = false) :
    (∀ st2 : AggState, st2.inProgress = true →
      checkHealth st2 o env2 =
        (st2.lastHealthCheck.getD (createUnhealthyResponse env2), st2, false)) ∧
    (concurrentCheckHealth st o env1 env2).2.1 =
      st.lastHealthCheck.getD (createUnhealthyResponse env2) ∧
    (concurrentCheckHealth st o env1 env2).2.2.1 = false ∧
    (concurrentCheckHealth st o env1 env2).1 = runChecksBody o env1 := by
  refine ⟨fun st2 h2 => by simp [checkHealth, h2], ?_, ?_, rfl⟩
  · simp [concurrentCheckHealth, checkHealth]
  · simp [concurrentCheckHealth, checkHealth]

/-- Witness for the amended C6 at the concrete counterexample state. -/
theorem C6_witness :
    (⟨none, false⟩ : AggState).inProgress = false ∧
    ((∀ st2 : AggState, st2.inProgress = true →
      checkHealth st2
          (.fulfilled okResult, .fulfilled okResult, .fulfilled okResult)
          envA =
        (st2.lastHealthCheck.getD (createUnhealthyResponse envA), st2, false)) ∧
    (concurrentCheckHealth ⟨none, false⟩
        (.fulfilled okResult, .fulfilled okResult, .fulfilled okResult)
        envA envA).2.1 =
      (⟨none, false⟩ : AggState).lastHealthCheck.getD
        (createUnhealthyResponse envA) ∧
    (concurrentCheckHealth ⟨none, false⟩
        (.fulfilled okResult, .fulfilled okResult, .fulfilled okResult)
        envA envA).2.2.1 = false ∧
    (concurrentCheckHealth ⟨none, false⟩
        (.fulfilled okResult, .fulfilled okResult, .fulfilled okResult)
        envA envA).1 =
      runChecksBody
        (.fulfilled okResult, .fulfilled okResult, .fulfilled okResult)
        envA) :=
  ⟨rfl, C6_amended_single_flight ⟨none, false⟩
    (.fulfilled okResult, .fulfilled okResult, .fulfilled okResult)
    envA envA rfl⟩

/-! ### Claim C7 -/

theorem computeOverall_unhealthy_iff (a b c : HealthCheckResult) :
    computeOverall a b c = .unhealthy ↔
      (a.status = .unhealthy ∨ b.status = .unhealthy ∨ c.status = .unhealthy) := by
  cases ha : a.status <;> cases hb : b.status <;> cases hc : c.status <;>
    simp [computeOverall, ha, hb, hc]

theorem computeOverall_degraded_iff (a b c : HealthCheckResult) :
    computeOverall a b c = .degraded ↔
      (¬(a.status = .unhealthy ∨ b.status = .unhealthy ∨
          c.status = .unhealthy) ∧
        (a.status = .degraded ∨ b.status = .degraded ∨
          c.status = .degraded)) := by
  cases ha : a.status <;> cases hb : b.status <;> cases hc : c.status <;>
    simp [computeOverall, ha, hb, hc]

theorem computeOverall_healthy_iff (a b c : HealthCheckResult) :
    computeOverall a b c = .healthy ↔
      (¬(a.status = .unhealthy ∨ b.status = .unhealthy ∨
          c.status = .unhealthy) ∧
        ¬(a.status = .degraded ∨ b.status = .degraded ∨
          c.status = .degraded)) := by
  cases ha : a.status <;> cases hb : b.status <;> cases hc : c.status <;>
    simp [computeOverall, ha, hb, hc]

/-- C7: a `checkHealth` run converts each of the three settled outcomes
individually — a rejected check becomes an unhealthy result carrying the
rejection message in its details instead of propagating — and the merged
overall status is unhealthy if any component is unhealthy, else degraded
if any component is degraded, else healthy. -/
theorem C7_settle_and_merge (st : AggState)
    (o1 o2 o3 : Settled HealthCheckResult) (env : AggEnv)
    (hguard : st.inProgress = false) :
    let r := (checkHealth st (o1, o2, o3) env).1
    r.inngest = getCheckResult o1 "Inngest connectivity check failed" env.now ∧
    r.functions = getCheckResult o2 "Functions check failed" env.now ∧
    r.memory = getCheckResult o3 "Memory check failed" env.now ∧
    (∀ m, o1 = .rejected m →
      r.inngest.status = .unhealthy ∧
      r.inngest.message = "Inngest connectivity check failed" ∧
      r.inngest.detailsError = some (m.getD "Unknown error")) ∧
    (∀ m, o2 = .rejected m →
      r.functions.status = .unhealthy ∧
      r.functions.detailsError = some (m.getD "Unknown error")) ∧
    (∀ m, o3 = .rejected m →
      r.memory.status = .unhealthy ∧
      r.memory.detailsError = some (m.getD "Unknown error")) ∧
    (r.overall = .unhealthy ↔
      (r.inngest.status = .unhealthy ∨ r.functions.status = .unhealthy ∨
        r.memory.status = .unhealthy)) ∧
    (r.overall = .degraded ↔
      (¬(r.inngest.status = .unhealthy ∨ r.functions.status = .unhealthy ∨
          r.memory.status = .unhealthy) ∧
        (r.inngest.status = .degraded ∨ r.functions.status = .degraded ∨
          r.memory.status = .degraded))) ∧
    (r.overall = .healthy ↔
      (¬(r.inngest.status = .unhealthy ∨ r.functions.status = .unhealthy ∨
          r.memory.status = .unhealthy) ∧
        ¬(r.inngest.status = .degraded ∨ r.functions.status = .degraded ∨
          r.memory.status = .degraded))) := by
  have hc : checkHealth st (o1, o2, o3) env =
      (runChecksBody (o1, o2, o3) env,
        ⟨some (runChecksBody (o1, o2, o3) env), false⟩, true) := by
    simp [checkHealth, hguard]
  intro r
  have hr : r = runChecksBody (o1, o2, o3) env := by
    show (checkHealth st (o1, o2, o3) env).1 = _
    rw [hc]
  rw [hr]
  refine ⟨rfl, rfl, rfl, ?_, ?_, ?_, ?_, ?_, ?_⟩
  · rintro m rfl; exact ⟨rfl, rfl, rfl⟩
  · rintro m rfl; exact ⟨rfl, rfl⟩
  · rintro m rfl; exact ⟨rfl, rfl⟩
  · exact computeOverall_unhealthy_iff _ _ _
  · exact computeOverall_degraded_iff _ _ _
  · exact computeOverall_healthy_iff _ _ _

/-- Witness for C7: one rejected check among two healthy ones. -/
theorem C7_witness :
    (⟨none, false⟩ : AggState).inProgress = false ∧
    (let r := (checkHealth ⟨none, false⟩
        (.fulfilled okResult, .rejected (some "boom"), .fulfilled okResult)
        envA).1
     r.inngest = getCheckResult (.fulfilled okResult)
        "Inngest connectivity check failed" envA.now ∧
     r.functions = getCheckResult (.rejected (some "boom"))
        "Functions check failed" envA.now ∧
     r.memory = getCheckResult (.fulfilled okResult)
        "Memory check failed" envA.now ∧
     (∀ m, (Settled.fulfilled okResult : Settled HealthCheckResult)
        = .rejected m →
       r.inngest.status = .unhealthy ∧
       r.inngest.message = "Inngest connectivity check failed" ∧
       r.inngest.detailsError = some (m.getD "Unknown error")) ∧
     (∀ m, (Settled.rejected (some "boom") : Settled HealthCheckResult)
        = .rejected m →
       r.functions.status = .unhealthy ∧
       r.functions.detailsError = some (m.getD "Unknown error")) ∧
     (∀ m, (Settled.fulfilled okResult : Settled HealthCheckResult)
        = .rejected m →
       r.memory.status = .unhealthy ∧
       r.memory.detailsError = some (m.getD "Unknown error")) ∧
     (r.overall = .unhealthy ↔
       (r.inngest.status = .unhealthy ∨ r.functions.status = .unhealthy ∨
         r.memory.status = .unhealthy)) ∧
     (r.overall = .degraded ↔
       (¬(r.inngest.status = .unhealthy ∨ r.functions.status = .unhealthy ∨
           r.memory.status = .unhealthy) ∧
         (r.inngest.status = .degraded ∨ r.functions.status = .degraded ∨
           r.memory.status = .degraded))) ∧
     (r.overall = .healthy ↔
       (¬(r.inngest.status = .unhealthy ∨ r.functions.status = .unhealthy ∨
           r.memory.status = .unhealthy) ∧
         ¬(r.inngest.status = .degraded ∨ r.functions.status = .degraded ∨
           r.memory.status = .degraded)))) :=
  ⟨rfl, C7_settle_and_merge ⟨none, false⟩
    (.fulfilled okResult) (.rejected (some "boom")) (.fulfilled okResult)
    envA rfl⟩

/-! ### Claim C8 -/

/-- Counterexample to C8 as stated: the entry-log read of the handle coarse
state happens after the shutting-down flag is set but before the try
block, so against a handle whose state getter throws the shutdown
propagates the exception to its caller and the handle reference is not
cleared. -/
theorem C8_counterexample :
    (gracefulShutdown stLive .closedGracefully).threw = true ∧
    (gracefulShutdown stLive .closedGracefully).state.workerConnection =
      some wThrowState := by decide

/-- C8 (amended): gracefulShutdown is a no-op when not in connect mode,
when no handle exists, or when a shutdown is already underway;
otherwise, provided the entry-log read of the handle coarse state
succeeds, it races graceful close against the configured timeout
(default 30000ms), a timeout or close failure is only recorded as a
warning — never escalated into a thrown error — and the handle
reference is cleared in the final step regardless of which side of the
race wins; when that pre-try state read throws, the exception
propagates to the caller with the shutting-down flag set and the handle
left in place. -/
theorem C8_shutdown_amended (st : ServiceState) (race : RaceOutcome) :
    ((st.mode ≠ .connect ∨ st.workerConnection = none ∨
        st.shuttingDown = true) →
      gracefulShutdown st race = ⟨st, false, false, 0, false⟩) ∧
    (∀ w, st.mode = .connect → st.workerConnection = some w →
      st.shuttingDown = false →
      ((∀ so, w.state = .val so →
        ((gracefulShutdown st race).attempted = true ∧
         (gracefulShutdown st race).threw = false ∧
         (gracefulShutdown st race).state.workerConnection = none ∧
         (gracefulShutdown st race).state.shuttingDown = true ∧
         (gracefulShutdown st race).timeoutUsed =
           st.shutdownTimeout.getD 30000 ∧
         (∀ msg, race = .threw msg →
           (gracefulShutdown st race).warnedNotGraceful = true))) ∧
       (w.state = .throws →
         ((gracefulShutdown st race).threw = true ∧
          (gracefulShutdown st race).state.workerConnection = some w ∧
          (gracefulShutdown st race).state.shuttingDown = true)))) := by
  obtain ⟨mo, wcn, sd, tt⟩ := st
  cases mo <;> rcases wcn with _ | w <;> cases sd <;> cases race <;>
    (try obtain ⟨ws, wid, wcc⟩ := w) <;> (try cases ws) <;>
    simp [gracefulShutdown]

/-- Witness for the amended C8: a live handle with a readable state and a
50ms timeout whose close race times out. -/
theorem C8_witness :
    (stLiveOk.mode = .connect ∧
      stLiveOk.workerConnection = some wThrowInternals ∧
      stLiveOk.shuttingDown = false ∧
      wThrowInternals.state = .val (some "ACTIVE")) ∧
    ((gracefulShutdown stLiveOk
        (.threw "Shutdown timeout exceeded")).attempted = true ∧
     (gracefulShutdown stLiveOk
        (.threw "Shutdown timeout exceeded")).threw = false ∧
     (gracefulShutdown stLiveOk
        (.threw "Shutdown timeout exceeded")).state.workerConnection = none ∧
     (gracefulShutdown stLiveOk
        (.threw "Shutdown timeout exceeded")).state.shuttingDown = true ∧
     (gracefulShutdown stLiveOk
        (.threw "Shutdown timeout exceeded")).timeoutUsed =
       stLiveOk.shutdownTimeout.getD 30000 ∧
     (∀ msg, (RaceOutcome.threw "Shutdown timeout exceeded") = .threw msg →
       (gracefulShutdown stLiveOk
          (.threw "Shutdown timeout exceeded")).warnedNotGraceful = true)) :=
  ⟨⟨rfl, rfl, rfl, rfl⟩,
    ((C8_shutdown_amended stLiveOk
        (.threw "Shutdown timeout exceeded")).2 wThrowInternals rfl rfl
      rfl).1 (some "ACTIVE") rfl⟩

/-! ### Claim C10 -/

/-- C10: the shutting-down flag is never reset — `establishConnection`
preserves it and a no-op or proceeding shutdown leaves it set — and once
it is set, every subsequent `establishConnection` call returns normally
without attempting a connection, without touching the handle, and
without raising, even though establishment failures are otherwise
rethrown to the caller. -/
theorem C10_flag_blocks_reconnect (st : ServiceState) (race : RaceOutcome)
    (o : ConnectOutcome) :
    ((establishConnection st o).state.shuttingDown = st.shuttingDown) ∧
    (st.shuttingDown = true →
      (gracefulShutdown st race).state.shuttingDown = true) ∧
    (st.mode = .connect → st.workerConnection ≠ none →
      st.shuttingDown = false →
      (gracefulShutdown st race).state.shuttingDown = true) ∧
    (st.shuttingDown = true → establishConnection st o = ⟨st, false, none⟩) ∧
    (st.shuttingDown = false → st.mode = .connect →
      ∀ m, establishConnection st (.fails m) = ⟨st, true, some m⟩) := by
  obtain ⟨mo, wcn, sd, tt⟩ := st
  cases mo <;> rcases wcn with _ | w <;> cases sd <;> cases race <;>
    cases o <;> (try obtain ⟨ws, wid, wcc⟩ := w) <;> (try cases ws) <;>
    simp [gracefulShutdown, establishConnection]

/-- Witness for C10: a shut-down service ignores a would-fail
establishment attempt. -/
theorem C10_witness :
    (⟨.connect, none, true, none⟩ : ServiceState).shuttingDown = true ∧
    establishConnection ⟨.connect, none, true, none⟩ (.fails "boom") =
      ⟨⟨.connect, none, true, none⟩, false, none⟩ :=
  ⟨rfl, (C10_flag_blocks_reconnect ⟨.connect, none, true, none⟩
    .closedGracefully (.fails "boom")).2.2.2.1 rfl⟩

end NestInngest
